import Mathlib

/-!
Verification of `scripts/process_grid_groupby.py` (climate_indices repository).

The script validates a set of gridded NetCDF inputs for mutual consistency
(`_validate_args`) and then, for the SPI family of indices, decomposes the
precipitation grid into per-cell time series (xarray `stack` over lat/lon),
applies the external index function per cell (`groupby('point').apply`),
and reassembles the results (`unstack`) into output layers, one per scale.

The embedding below translates the script's data model and control flow:
a NetCDF dataset is a list of named data variables (each with a dimension
tuple, a (lat, lon, time)-nested data array, and attributes) together with
its lat/lon/time coordinate vectors; coordinate values are modelled as
integers (the script compares them with exact `np.array_equal` equality);
each distinct `raise ValueError(msg)` site becomes its own error constructor.
-/

namespace ClimateGrid

/-- The `--index` choices of the script's argument parser
(`choices=['spi', 'spei', 'pnp', 'scaled', 'pet', 'palmers']`). -/
inductive Index
  | spi
  | spei
  | pnp
  | scaled
  | pet
  | palmers
deriving DecidableEq, Repr

/-- `compute.Periodicity`: the `--periodicity` choices (monthly or daily). -/
inductive Periodicity
  | monthly
  | daily
deriving DecidableEq, Repr

/-- Attribute values attached to a NetCDF variable (`long_name` is a string,
`valid_min` / `valid_max` are numbers). -/
inductive AttrVal
  | str (s : String)
  | num (q : Rat)
deriving DecidableEq

/-- A NetCDF data variable: its dimension-name tuple, its data array nested as
lat-major / lon / time-series, and its attributes. -/
structure NCVar where
  dims : List String
  data : List (List (List Int))
  attrs : List (String × AttrVal)
deriving DecidableEq

/-- A NetCDF dataset: the named data variables plus the `lat`, `lon` and
`time` coordinate variables (read by the script as
`dataset.variables['lat'][:]` etc.).  Coordinate values are modelled as
integers; the script compares them with exact equality (`np.array_equal`). -/
structure NCDataset where
  dataVars : List (String × NCVar)
  lat : List Int
  lon : List Int
  time : List Int
deriving DecidableEq

/-- The argparse result consumed by `_validate_args` and the main block.
A `--netcdf_*` path argument is modelled as the dataset it opens
(file opening itself is out of scope); absent optional arguments are `none`. -/
structure Args where
  index : Index
  periodicity : Periodicity
  netcdf_precip : Option NCDataset
  var_name_precip : Option String
  netcdf_temp : Option NCDataset
  var_name_temp : Option String
  netcdf_pet : Option NCDataset
  var_name_pet : Option String
  netcdf_awc : Option NCDataset
  var_name_awc : Option String
  scales : Option (List Int)
  calibration_start_year : Option Int
  calibration_end_year : Option Int
deriving DecidableEq

instance {ε α : Type} [DecidableEq ε] [DecidableEq α] : DecidableEq (Except ε α) := fun x y =>
  match x, y with
  | Except.ok a, Except.ok b =>
    if h : a = b then Decidable.isTrue (by rw [h])
    else Decidable.isFalse (fun hc => h (Except.ok.inj hc))
  | Except.error e, Except.error e2 =>
    if h : e = e2 then Decidable.isTrue (by rw [h])
    else Decidable.isFalse (fun hc => h (Except.error.inj hc))
  | Except.ok _, Except.error _ => Decidable.isFalse (fun hc => Except.noConfusion hc)
  | Except.error _, Except.ok _ => Decidable.isFalse (fun hc => Except.noConfusion hc)

/-- The spec's CoordinateSet: the (lat, lon, time) coordinate-vector triple of
a dataset. -/
structure CoordinateSet where
  lat : List Int
  lon : List Int
  time : List Int
deriving DecidableEq

/-- The CoordinateSet of a dataset. -/
def NCDataset.coords (ds : NCDataset) : CoordinateSet :=
  { lat := ds.lat, lon := ds.lon, time := ds.time }

/-- One of the three coordinate axes. -/
inductive Axis
  | lat
  | lon
  | time
deriving DecidableEq, Repr

/-- The coordinate vector of a CoordinateSet along one axis. -/
def coordAxis : Axis → CoordinateSet → List Int
  | Axis.lat, c => c.lat
  | Axis.lon, c => c.lon
  | Axis.time, c => c.time

/-- One error constructor per distinct `raise ValueError(msg)` site of
`_validate_args`, in source order. -/
inductive VErr
  | missingPrecipFile
  | missingPrecipVarName
  | invalidPrecipVarName
  | invalidPrecipDims
  | missingTempFile
  | invalidPeriodicityForPet
  | missingTempOrPetFiles
  | missingPetVarName
  | invalidPetVarName
  | invalidPetDims
  | petLatMismatch
  | petLonMismatch
  | petTimeMismatch
  | bothTempAndPet
  | missingTempVarName
  | invalidTempVarName
  | invalidTempDims
  | tempLatMismatch
  | tempLonMismatch
  | tempTimeMismatch
  | missingAwcFile
  | missingAwcVarName
  | invalidAwcVarName
  | invalidAwcDims
  | awcLatMismatch
  | awcLonMismatch
  | missingScales
  | negativeScale
deriving DecidableEq, Repr

/-- `expected_dimensions = ('lat', 'lon', 'time')`. -/
def expectedDimensions : List String := ["lat", "lon", "time"]

/-- The three sequential coordinate comparisons of `_validate_args`
(lines 117-128 and 161-173): compare a candidate CoordinateSet against the
precipitation reference with `np.array_equal` per axis, reporting the first
mismatching axis. -/
def checkCoords (ref cand : CoordinateSet) : Except Axis Unit :=
  if ref.lat ≠ cand.lat then Except.error Axis.lat
  else if ref.lon ≠ cand.lon then Except.error Axis.lon
  else if ref.time ≠ cand.time then Except.error Axis.time
  else Except.ok ()

/-- Lines 32-67: the precipitation branch of `_validate_args`, run for every
index except `pet`.  On success it returns the precipitation CoordinateSet,
the reference for all later comparisons. -/
def checkPrecip (a : Args) : Except VErr CoordinateSet :=
  match a.netcdf_precip with
  | none => Except.error VErr.missingPrecipFile
  | some ds =>
    match a.var_name_precip with
    | none => Except.error VErr.missingPrecipVarName
    | some vname =>
      match List.lookup vname ds.dataVars with
      | none => Except.error VErr.invalidPrecipVarName
      | some v =>
        if v.dims ≠ expectedDimensions then Except.error VErr.invalidPrecipDims
        else Except.ok ds.coords

/-- Lines 69-82: the `pet` branch of `_validate_args`: a temperature file is
required and only monthly periodicity is supported. -/
def checkPetBranch (a : Args) : Except VErr Unit :=
  match a.netcdf_temp with
  | none => Except.error VErr.missingTempFile
  | some _ =>
    if a.periodicity ≠ Periodicity.monthly then Except.error VErr.invalidPeriodicityForPet
    else Except.ok ()

/-- Lines 87-173: exactly one of the temperature and PET files must be given
for `spei`/`scaled`/`palmers`; the given one is validated (variable name,
dimension order, coordinates) against the precipitation reference. -/
def checkTempOrPet (a : Args) (ref : CoordinateSet) : Except VErr Unit :=
  match a.netcdf_temp with
  | none =>
    match a.netcdf_pet with
    | none => Except.error VErr.missingTempOrPetFiles
    | some dsPet =>
      match a.var_name_pet with
      | none => Except.error VErr.missingPetVarName
      | some vn =>
        match List.lookup vn dsPet.dataVars with
        | none => Except.error VErr.invalidPetVarName
        | some v =>
          if v.dims ≠ expectedDimensions then Except.error VErr.invalidPetDims
          else
            match checkCoords ref dsPet.coords with
            | Except.error Axis.lat => Except.error VErr.petLatMismatch
            | Except.error Axis.lon => Except.error VErr.petLonMismatch
            | Except.error Axis.time => Except.error VErr.petTimeMismatch
            | Except.ok _ => Except.ok ()
  | some dsTemp =>
    match a.netcdf_pet with
    | some _ => Except.error VErr.bothTempAndPet
    | none =>
      match a.var_name_temp with
      | none => Except.error VErr.missingTempVarName
      | some vn =>
        match List.lookup vn dsTemp.dataVars with
        | none => Except.error VErr.invalidTempVarName
        | some v =>
          if v.dims ≠ expectedDimensions then Except.error VErr.invalidTempDims
          else
            match checkCoords ref dsTemp.coords with
            | Except.error Axis.lat => Except.error VErr.tempLatMismatch
            | Except.error Axis.lon => Except.error VErr.tempLonMismatch
            | Except.error Axis.time => Except.error VErr.tempTimeMismatch
            | Except.ok _ => Except.ok ()

/-- Lines 176-214: the `palmers` AWC checks.  The AWC variable may have
dimensions `(lat, lon)` or `(lat, lon, time)`; only its lat and lon
coordinate vectors are compared against the precipitation reference. -/
def checkAwc (a : Args) (ref : CoordinateSet) : Except VErr Unit :=
  match a.netcdf_awc with
  | none => Except.error VErr.missingAwcFile
  | some ds =>
    match a.var_name_awc with
    | none => Except.error VErr.missingAwcVarName
    | some vn =>
      match List.lookup vn ds.dataVars with
      | none => Except.error VErr.invalidAwcVarName
      | some v =>
        if v.dims ≠ ["lat", "lon"] ∧ v.dims ≠ expectedDimensions then
          Except.error VErr.invalidAwcDims
        else if ref.lat ≠ ds.lat then Except.error VErr.awcLatMismatch
        else if ref.lon ≠ ds.lon then Except.error VErr.awcLonMismatch
        else Except.ok ()

/-- Lines 85-214: the auxiliary-input block guarded by
`if args.index in ['spei', 'scaled', 'palmers']`. -/
def checkAuxInputs (a : Args) (ref : CoordinateSet) : Except VErr Unit :=
  match checkTempOrPet a ref with
  | Except.error e => Except.error e
  | Except.ok _ =>
    if a.index ∈ [Index.palmers] then checkAwc a ref else Except.ok ()

/-- Lines 216-227: the scales block guarded by
`if args.index in ['spi', 'spei', 'scaled', 'pnp']`: the `--scales` argument
must be present and no listed scale may be negative. -/
def checkScales (a : Args) : Except VErr Unit :=
  if a.index ∈ [Index.spi, Index.spei, Index.scaled, Index.pnp] then
    match a.scales with
    | none => Except.error VErr.missingScales
    | some ss => if ss.any (fun n => n < 0) then Except.error VErr.negativeScale else Except.ok ()
  else Except.ok ()

/-- `_validate_args` (lines 20-227): the sequential validation chain.
The first block either validates the precipitation file (index other than
`pet`, producing the reference CoordinateSet) or runs the `pet` branch;
the second block runs only for `spei`/`scaled`/`palmers` (all of which are
not `pet`, so the precipitation reference is always defined there — the
`getD` default is dead code mirroring Python's reliance on `lats_precip`
being bound); the third block checks the scales. -/
def validateArgs (a : Args) : Except VErr Unit :=
  match
    (if a.index ≠ Index.pet then Except.map some (checkPrecip a)
     else Except.map (fun _ => none) (checkPetBranch a)) with
  | Except.error e => Except.error e
  | Except.ok ref? =>
    match
      (if a.index ∈ [Index.spei, Index.scaled, Index.palmers] then
        checkAuxInputs a (ref?.getD { lat := [], lon := [], time := [] })
       else Except.ok ()) with
    | Except.error e => Except.error e
    | Except.ok _ => checkScales a

/-!
The grid decomposition/recomposition pipeline of the main block
(lines 315-373).  A data grid is nested lat-major: `grid[y][x]` is the time
series at latitude index `y` and longitude index `x`.  `da.stack(point=
('lat', 'lon'))` enumerates the (lat, lon) cells row-major under a composite
`point` key; `groupby('point').apply(f)` applies `f` to each cell's series;
`unstack('point')` reassembles the per-key results into the grid.
-/

/-- The cells of one grid row: longitude index `x0` onward at latitude
index `y`, each time series tagged with its SpatialKey `(y, x)`. -/
def rowCells (y x0 : Nat) : List α → List ((Nat × Nat) × α)
  | [] => []
  | v :: rest => ((y, x0), v) :: rowCells y (x0 + 1) rest

/-- The cells of the rows of a grid from latitude index `y0` onward, in the
row-major order of `stack(point=('lat', 'lon'))`. -/
def gridCells (y0 : Nat) : List (List α) → List ((Nat × Nat) × α)
  | [] => []
  | row :: rest => rowCells y0 0 row ++ gridCells (y0 + 1) rest

/-- Decompose: `da.stack(point=('lat', 'lon'))` — the grid as a key-value
list from SpatialKey `(lat index, lon index)` to the cell's time series. -/
def decompose (grid : List (List α)) : List ((Nat × Nat) × α) :=
  gridCells 0 grid

/-- Compute: `groupby('point').apply(f)` — apply the per-cell index function
to each cell's series, keeping each result under its SpatialKey. -/
def applyPerCell (f : α → β) (cells : List ((Nat × Nat) × α)) : List ((Nat × Nat) × β) :=
  cells.map (fun c => (c.1, f c.2))

/-- Collect a list of optional values, failing if any is absent. -/
def seqOpt : List (Option α) → Option (List α)
  | [] => some []
  | o :: rest =>
    match o with
    | none => none
    | some v =>
      match seqOpt rest with
      | none => none
      | some vs => some (v :: vs)

/-- Recompose: `unstack('point')` — rebuild the `(lat, lon)` grid by looking
each SpatialKey up in the computed cells; `none` if any key is absent
(the reassembly invariant violation). -/
def recompose (Y X : Nat) (cells : List ((Nat × Nat) × α)) : Option (List (List α)) :=
  seqOpt ((List.range Y).map (fun y =>
    seqOpt ((List.range X).map (fun x => List.lookup (y, x) cells))))

/-- The full SpatialKey enumeration of a `(Y, X)` grid, row-major. -/
def allSpatialKeys (Y X : Nat) : List (Nat × Nat) :=
  ((List.range Y).map (fun y => (List.range X).map (fun x => (y, x)))).flatten

/-- A grid is rectangular with width `X`: every latitude row has `X`
longitude cells. -/
def RectGrid (X : Nat) (grid : List (List α)) : Prop :=
  ∀ row ∈ grid, row.length = X

/-- The width the main block recovers for a grid (its first row's length). -/
def gridWidth (grid : List (List α)) : Nat :=
  (grid.head?.map List.length).getD 0

/-!  The main block itself (lines 315-373). -/

/-- One error constructor per Python runtime failure the main block can hit,
in source order: `xr.open_dataset(None)`, `var not in None`, `dataset[name]`
with a missing name, `time.values[0]` on an empty time coordinate, iterating
`None` scales, a failed `unstack`, and the `NameError` on the undefined
`dataset` at line 370 when the index is not `spi`/`scaled`. -/
inductive PyErr
  | openErrorNoPrecip
  | typeErrorNoVarName
  | keyErrorPrecipVar
  | indexErrorEmptyTime
  | typeErrorNoScales
  | unstackError
  | nameErrorDataset
deriving DecidableEq, Repr

/-- `leadMatch s t`: the characters `s` occur at the start of `t`. -/
def leadMatch : List Char → List Char → Bool
  | [], _ => true
  | _ :: _, [] => false
  | a :: as, b :: bs => a == b && leadMatch as bs

/-- Python's `needle in hay` on strings: substring containment. -/
def pyInStr (needle hay : String) : Bool :=
  (List.range (hay.data.length + 1)).any (fun i => leadMatch needle.data (hay.data.drop i))

/-- Python's `str(n).zfill(w)` for the non-negative scales that reach the
main block: left-pad the decimal representation with zeros to width `w`. -/
def zfill (w : Nat) (s : String) : String :=
  if w ≤ s.length then s else String.mk (List.replicate (w - s.length) ('0')) ++ s

/-- Line 367: the scale-qualified output variable name
`"spi_gamma_" + str(timestep_scale).zfill(2)`. -/
def scaleVarName (s : Int) : String :=
  "spi_gamma_" ++ zfill 2 (toString s)

/-- Lines 337-340: the scale increment word for the periodicity. -/
def scaleIncrement : Periodicity → String
  | Periodicity.daily => "day"
  | Periodicity.monthly => "month"

/-- Lines 360-361: the `long_name` attribute of an output layer. -/
def spiLongName (s : Int) (p : Periodicity) : String :=
  "Standardized Precipitation Index (Gamma distribution), " ++ toString s ++ "-" ++ scaleIncrement p

/-- `dataset[name] = var`: replace the binding if the name exists, else
append it. -/
def setVar (name : String) (v : NCVar) : List (String × NCVar) → List (String × NCVar)
  | [] => [(name, v)]
  | p :: rest => if p.1 = name then (name, v) :: rest else p :: setVar name v rest

/-- One scale's pipeline (lines 349-357): stack, apply the index function to
every cell, unstack.  The data stays in lat-major nesting; `none` only if a
SpatialKey went missing. -/
def computeSpiLayer (f : List Int → List Int) (grid : List (List (List Int))) :
    Option (List (List (List Int))) :=
  recompose grid.length (gridWidth grid) (applyPerCell f (decompose grid))

/-- Lines 344-367, one iteration of `for timestep_scale in arguments.scales`:
compute the layer for the scale and assign it into the dataset under its
scale-qualified name with `long_name`/`valid_min`/`valid_max` attributes.
After `unstack` the xarray dims are `('time', 'lat', 'lon')`; the embedding
keeps the logical cell contents lat-major. -/
def spiOutVar (s : Int) (p : Periodicity) (layer : List (List (List Int))) : NCVar :=
  { dims := ["time", "lat", "lon"],
    data := layer,
    attrs := [("long_name", AttrVal.str (spiLongName s p)),
              ("valid_min", AttrVal.num (-3.09)),
              ("valid_max", AttrVal.num (3.09))] }

def spiStep (f : Int → List Int → List Int) (p : Periodicity)
    (pdata : List (List (List Int)))
    (acc : Except PyErr (List (String × NCVar))) (s : Int) :
    Except PyErr (List (String × NCVar)) :=
  match acc with
  | Except.error e => Except.error e
  | Except.ok ds =>
    match computeSpiLayer (f s) pdata with
    | none => Except.error PyErr.unstackError
    | some layer => Except.ok (setVar (scaleVarName s) (spiOutVar s p layer) ds)

/-- The main block after validation (lines 315-373), abstracted over the
external index function `f` (scale → series → series; `spi_gamma`'s
distribution, start-year, calibration and periodicity arguments are fixed
externally).  For `spi`/`scaled`: open the precipitation dataset, drop every
data variable whose name is NOT a substring of the precipitation variable
name (line 322's `if var not in arguments.var_name_precip` is Python
substring containment, not name inequality), compute one layer per scale,
then drop the precipitation variable.  For any other index, line 370
references the never-assigned `dataset` and raises `NameError`. -/
def pyMain (f : Int → List Int → List Int) (a : Args) :
    Except PyErr (List (String × NCVar)) :=
  if a.index = Index.spi ∨ a.index = Index.scaled then
    match a.netcdf_precip with
    | none => Except.error PyErr.openErrorNoPrecip
    | some ds =>
      match a.var_name_precip with
      | none => Except.error PyErr.typeErrorNoVarName
      | some vname =>
        match List.lookup vname (ds.dataVars.filter (fun q => pyInStr q.1 vname)) with
        | none => Except.error PyErr.keyErrorPrecipVar
        | some pv =>
          match ds.time with
          | [] => Except.error PyErr.indexErrorEmptyTime
          | _ :: _ =>
            match a.scales with
            | none => Except.error PyErr.typeErrorNoScales
            | some scales =>
              match scales.foldl (spiStep f a.periodicity pv.data)
                  (Except.ok (ds.dataVars.filter (fun q => pyInStr q.1 vname))) with
              | Except.error e => Except.error e
              | Except.ok ds2 => Except.ok (ds2.filter (fun q => q.1 ≠ vname))
  else Except.error PyErr.nameErrorDataset

/-!  Concrete exemplar datasets and argument records used by witnesses and
counterexamples. -/

/-- A well-formed single-cell dataset holding a precipitation variable. -/
def dsPrecipEx : NCDataset :=
  { dataVars := [("prcp", { dims := ["lat", "lon", "time"], data := [[[1, 2, 3]]], attrs := [] })],
    lat := [10], lon := [20], time := [100, 200, 300] }

/-- A temperature dataset with the same coordinates as `dsPrecipEx`. -/
def dsTempEx : NCDataset :=
  { dataVars := [("tavg", { dims := ["lat", "lon", "time"], data := [[[4, 5, 6]]], attrs := [] })],
    lat := [10], lon := [20], time := [100, 200, 300] }

/-- A PET dataset with the same coordinates as `dsPrecipEx`. -/
def dsPetEx : NCDataset :=
  { dataVars := [("pet", { dims := ["lat", "lon", "time"], data := [[[7, 8, 9]]], attrs := [] })],
    lat := [10], lon := [20], time := [100, 200, 300] }

/-- A baseline argument record: a valid monthly SPI request over
`dsPrecipEx` with scales 3 and 6. -/
def argsSpiEx : Args :=
  { index := Index.spi, periodicity := Periodicity.monthly,
    netcdf_precip := some dsPrecipEx, var_name_precip := some "prcp",
    netcdf_temp := none, var_name_temp := none,
    netcdf_pet := none, var_name_pet := none,
    netcdf_awc := none, var_name_awc := none,
    scales := some [3, 6],
    calibration_start_year := some 1, calibration_end_year := some 2 }

/-!  Helper lemmas on the validation chain. -/

theorem checkScales_of_not_scaled (a : Args)
    (h : a.index ∉ [Index.spi, Index.spei, Index.scaled, Index.pnp]) :
    checkScales a = Except.ok () := by
  unfold checkScales
  rw [if_neg h]

theorem validateArgs_nonpet (a : Args) (hne : a.index ≠ Index.pet) :
    validateArgs a =
      match checkPrecip a with
      | Except.error e => Except.error e
      | Except.ok ref =>
        match (if a.index ∈ [Index.spei, Index.scaled, Index.palmers] then checkAuxInputs a ref
               else Except.ok ()) with
        | Except.error e => Except.error e
        | Except.ok _ => checkScales a := by
  unfold validateArgs
  rw [if_pos hne]
  cases hc : checkPrecip a with
  | error e => simp [Except.map]
  | ok ref => simp [Except.map]

theorem validateArgs_pet (a : Args) (hpet : a.index = Index.pet) :
    validateArgs a =
      match checkPetBranch a with
      | Except.error e => Except.error e
      | Except.ok _ => Except.ok () := by
  unfold validateArgs
  rw [if_neg (by simp [hpet])]
  cases hc : checkPetBranch a with
  | error e => simp [Except.map]
  | ok u =>
    have hmem : a.index ∉ [Index.spei, Index.scaled, Index.palmers] := by simp [hpet]
    simp [Except.map, hmem, checkScales_of_not_scaled a (by simp [hpet])]

/-- C3.  Coordinate cross-validation succeeds exactly on pairs whose lat,
lon and time vectors are element-wise equal (in value and length — list
equality), and any failure names an axis on which the two CoordinateSets
actually differ; the comparison is exact equality on the coordinate values,
not approximate. -/
theorem spec_c3_coordinate_validation (ref cand : CoordinateSet) :
    (checkCoords ref cand = Except.ok () ↔
      (ref.lat = cand.lat ∧ ref.lon = cand.lon ∧ ref.time = cand.time))
    ∧ (∀ ax : Axis, checkCoords ref cand = Except.error ax →
        coordAxis ax ref ≠ coordAxis ax cand) := by
  unfold checkCoords
  split_ifs with h1 h2 h3
  · refine ⟨by simp [h1], ?_⟩
    intro ax hax
    have : Axis.lat = ax := by simpa using hax
    subst this
    simpa [coordAxis] using h1
  · refine ⟨by simp [h2], ?_⟩
    intro ax hax
    have : Axis.lon = ax := by simpa using hax
    subst this
    simpa [coordAxis] using h2
  · refine ⟨by simp [h3], ?_⟩
    intro ax hax
    have : Axis.time = ax := by simpa using hax
    subst this
    simpa [coordAxis] using h3
  · refine ⟨by simp [not_not.mp h1, not_not.mp h2, not_not.mp h3], ?_⟩
    intro ax hax
    simp at hax

/-- C3 witness: a concrete pair differing only in longitude. -/
theorem spec_c3_witness :
    coordAxis Axis.lon { lat := [1], lon := [2], time := [3] }
      ≠ coordAxis Axis.lon { lat := [1], lon := [9], time := [3] } :=
  (spec_c3_coordinate_validation
    { lat := [1], lon := [2], time := [3] }
    { lat := [1], lon := [9], time := [3] }).2 Axis.lon (by decide)

/-- C5, amended.  For the `pet` index a temperature file is required
(missing it fails first, with the missing-temperature error even under
daily periodicity); once a temperature file is supplied, daily periodicity
fails with the unsupported-periodicity error regardless of all other
inputs, and monthly periodicity passes validation. -/
theorem spec_c5_amended (a : Args) (hpet : a.index = Index.pet) :
    (a.netcdf_temp = none → validateArgs a = Except.error VErr.missingTempFile)
    ∧ (∀ dt, a.netcdf_temp = some dt → a.periodicity = Periodicity.daily →
        validateArgs a = Except.error VErr.invalidPeriodicityForPet)
    ∧ (∀ dt, a.netcdf_temp = some dt → a.periodicity = Periodicity.monthly →
        validateArgs a = Except.ok ()) := by
  rw [validateArgs_pet a hpet]
  refine ⟨?_, ?_, ?_⟩
  · intro ht
    unfold checkPetBranch
    rw [ht]
  · intro dt ht hp
    unfold checkPetBranch
    rw [ht]
    simp [hp]
  · intro dt ht hp
    unfold checkPetBranch
    rw [ht]
    simp [hp]

/-- C5 witness for the amended claim: daily periodicity with a temperature
file present fails with the unsupported-periodicity error. -/
theorem spec_c5_witness :
    validateArgs
        { argsSpiEx with
          index := Index.pet, periodicity := Periodicity.daily,
          netcdf_temp := some dsTempEx }
      = Except.error VErr.invalidPeriodicityForPet :=
  (spec_c5_amended _ rfl).2.1 dsTempEx rfl rfl

/-- A `pet` request under daily periodicity with no temperature file. -/
def argsPetDailyEx : Args :=
  { argsSpiEx with
    index := Index.pet, periodicity := Periodicity.daily, netcdf_temp := none }

/-- C5 counterexample to the claim as stated: for the `pet` index under
daily periodicity with no temperature file, the error raised is the
missing-temperature one, not the unsupported-periodicity one — so daily
periodicity does not raise the periodicity error "regardless of other
inputs". -/
theorem spec_c5_counterexample :
    argsPetDailyEx.index = Index.pet ∧ argsPetDailyEx.periodicity = Periodicity.daily
    ∧ validateArgs argsPetDailyEx = Except.error VErr.missingTempFile
    ∧ validateArgs argsPetDailyEx ≠ Except.error VErr.invalidPeriodicityForPet := by
  refine ⟨rfl, rfl, by decide, by decide⟩

/-- C7.  For each validated data variable (precipitation, PET,
temperature), once the file, variable name and variable lookup succeed, the
dimension check fails with the dimension-order error exactly when the
variable's dimension tuple differs, as an ordered tuple, from
`("lat", "lon", "time")` — any permutation of the names is a failure. -/
theorem spec_c7_dimension_order :
    (∀ (a : Args) (ds : NCDataset) (vn : String) (v : NCVar),
        a.netcdf_precip = some ds → a.var_name_precip = some vn →
        List.lookup vn ds.dataVars = some v →
        (checkPrecip a = Except.error VErr.invalidPrecipDims ↔ v.dims ≠ expectedDimensions))
    ∧ (∀ (a : Args) (ref : CoordinateSet) (ds : NCDataset) (vn : String) (v : NCVar),
        a.netcdf_temp = none → a.netcdf_pet = some ds → a.var_name_pet = some vn →
        List.lookup vn ds.dataVars = some v →
        (checkTempOrPet a ref = Except.error VErr.invalidPetDims ↔ v.dims ≠ expectedDimensions))
    ∧ (∀ (a : Args) (ref : CoordinateSet) (ds : NCDataset) (vn : String) (v : NCVar),
        a.netcdf_temp = some ds → a.netcdf_pet = none → a.var_name_temp = some vn →
        List.lookup vn ds.dataVars = some v →
        (checkTempOrPet a ref = Except.error VErr.invalidTempDims ↔ v.dims ≠ expectedDimensions)) := by
  refine ⟨?_, ?_, ?_⟩
  · intro a ds vn v hds hvn hlk
    unfold checkPrecip
    simp only [hds, hvn, hlk]
    by_cases hd : v.dims = expectedDimensions
    · simp [hd]
    · simp [hd]
  · intro a ref ds vn v ht hp hvn hlk
    unfold checkTempOrPet
    simp only [ht, hp, hvn, hlk]
    by_cases hd : v.dims = expectedDimensions
    · rw [if_neg (not_not_intro hd)]
      cases hc : checkCoords ref ds.coords with
      | error ax => cases ax <;> simp [hd]
      | ok u => simp [hd]
    · simp [hd]
  · intro a ref ds vn v ht hp hvn hlk
    unfold checkTempOrPet
    simp only [ht, hp, hvn, hlk]
    by_cases hd : v.dims = expectedDimensions
    · rw [if_neg (not_not_intro hd)]
      cases hc : checkCoords ref ds.coords with
      | error ax => cases ax <;> simp [hd]
      | ok u => simp [hd]
    · simp [hd]

/-- C7 witness: a precipitation variable with permuted dimensions
`("lon", "lat", "time")` fails the dimension check. -/
theorem spec_c7_witness :
    checkPrecip
        { argsSpiEx with
          netcdf_precip := some
            { dsPrecipEx with
              dataVars := [("prcp",
                { dims := ["lon", "lat", "time"], data := [[[1, 2, 3]]], attrs := [] })] } }
      = Except.error VErr.invalidPrecipDims :=
  (spec_c7_dimension_order.1 _ _ "prcp"
      { dims := ["lon", "lat", "time"], data := [[[1, 2, 3]]], attrs := [] }
      rfl rfl (by decide)).mpr (by decide)

theorem checkCoords_lat_ne (ref cand : CoordinateSet) (h : ref.lat ≠ cand.lat) :
    checkCoords ref cand = Except.error Axis.lat := by
  unfold checkCoords
  rw [if_pos h]

/-- C4.  For `spei` and `palmers` (once the precipitation reference is
established), exactly one of the temperature and PET files is accepted:
neither fails with the missing-temperature-or-PET error, both fails with
the conflicting-inputs error, and whichever one is given is cross-validated
against the precipitation reference CoordinateSet (shown here on the
latitude axis for each). -/
theorem spec_c4_temp_xor_pet (a : Args) (ref : CoordinateSet)
    (hidx : a.index = Index.spei ∨ a.index = Index.palmers)
    (hpre : checkPrecip a = Except.ok ref) :
    (a.netcdf_temp = none → a.netcdf_pet = none →
      validateArgs a = Except.error VErr.missingTempOrPetFiles)
    ∧ (a.netcdf_temp ≠ none → a.netcdf_pet ≠ none →
      validateArgs a = Except.error VErr.bothTempAndPet)
    ∧ (∀ dsPet vn v, a.netcdf_temp = none → a.netcdf_pet = some dsPet →
        a.var_name_pet = some vn → List.lookup vn dsPet.dataVars = some v →
        v.dims = expectedDimensions → ref.lat ≠ dsPet.lat →
        validateArgs a = Except.error VErr.petLatMismatch)
    ∧ (∀ dsTemp vn v, a.netcdf_temp = some dsTemp → a.netcdf_pet = none →
        a.var_name_temp = some vn → List.lookup vn dsTemp.dataVars = some v →
        v.dims = expectedDimensions → ref.lat ≠ dsTemp.lat →
        validateArgs a = Except.error VErr.tempLatMismatch) := by
  have hne : a.index ≠ Index.pet := by rcases hidx with h | h <;> simp [h]
  have hmem : a.index ∈ [Index.spei, Index.scaled, Index.palmers] := by
    rcases hidx with h | h <;> simp [h]
  rw [validateArgs_nonpet a hne]
  simp only [hpre]
  rw [if_pos hmem]
  refine ⟨?_, ?_, ?_, ?_⟩
  · intro ht hp
    unfold checkAuxInputs checkTempOrPet
    simp only [ht, hp]
  · intro ht hp
    cases hdt : a.netcdf_temp with
    | none => exact absurd hdt ht
    | some dt =>
      cases hdp : a.netcdf_pet with
      | none => exact absurd hdp hp
      | some dp =>
        unfold checkAuxInputs checkTempOrPet
        simp only [hdt, hdp]
  · intro dsPet vn v ht hp hvn hlk hd hlat
    unfold checkAuxInputs checkTempOrPet
    simp only [ht, hp, hvn, hlk]
    rw [if_neg (not_not_intro hd)]
    rw [checkCoords_lat_ne ref dsPet.coords hlat]
  · intro dsTemp vn v ht hp hvn hlk hd hlat
    unfold checkAuxInputs checkTempOrPet
    simp only [ht, hp, hvn, hlk]
    rw [if_neg (not_not_intro hd)]
    rw [checkCoords_lat_ne ref dsTemp.coords hlat]

/-- C4 witness: a `spei` request supplying both a temperature and a PET
file fails with the conflicting-inputs error. -/
theorem spec_c4_witness :
    validateArgs
        { argsSpiEx with
          index := Index.spei,
          netcdf_temp := some dsTempEx, var_name_temp := some "tavg",
          netcdf_pet := some dsPetEx, var_name_pet := some "pet" }
      = Except.error VErr.bothTempAndPet :=
  (spec_c4_temp_xor_pet _ dsPrecipEx.coords (Or.inl rfl) (by decide)).2.1
    (by decide) (by decide)

/-- C6, amended.  For the scale-parameterized indices (`spi`, `spei`,
`scaled`, `pnp`), once the earlier validation blocks pass: an absent
`--scales` argument fails with the missing-scales error, a list containing
a negative scale fails with the negative-scale error, and any list whose
elements are all non-negative — including the empty list — passes
validation. -/
theorem spec_c6_amended (a : Args) (ref : CoordinateSet)
    (hmem : a.index ∈ [Index.spi, Index.spei, Index.scaled, Index.pnp])
    (hpre : checkPrecip a = Except.ok ref)
    (haux : a.index ∈ [Index.spei, Index.scaled, Index.palmers] →
      checkAuxInputs a ref = Except.ok ()) :
    (a.scales = none → validateArgs a = Except.error VErr.missingScales)
    ∧ (∀ ss, a.scales = some ss → (∃ n ∈ ss, n < 0) →
        validateArgs a = Except.error VErr.negativeScale)
    ∧ (∀ ss, a.scales = some ss → (∀ n ∈ ss, 0 ≤ n) →
        validateArgs a = Except.ok ()) := by
  have hne : a.index ≠ Index.pet := by
    intro h
    rw [h] at hmem
    simp at hmem
  have hsc : validateArgs a = checkScales a := by
    rw [validateArgs_nonpet a hne]
    simp only [hpre]
    by_cases hmem2 : a.index ∈ [Index.spei, Index.scaled, Index.palmers]
    · rw [if_pos hmem2, haux hmem2]
    · rw [if_neg hmem2]
  rw [hsc]
  unfold checkScales
  rw [if_pos hmem]
  refine ⟨?_, ?_, ?_⟩
  · intro hs
    rw [hs]
  · intro ss hs hneg
    rw [hs]
    have : ss.any (fun n => decide (n < 0)) = true := by
      rcases hneg with ⟨n, hn, hlt⟩
      exact List.any_eq_true.mpr ⟨n, hn, by simpa using hlt⟩
    simp only [this]
    simp
  · intro ss hs hpos
    rw [hs]
    have : ss.any (fun n => decide (n < 0)) = false := by
      rw [List.any_eq_false]
      intro n hn
      simpa using hpos n hn
    simp only [this]
    rw [if_neg (by simp)]

/-- C6 witness for the amended claim: omitting `--scales` for `spi` fails
with the missing-scales error. -/
theorem spec_c6_witness :
    validateArgs { argsSpiEx with scales := none } = Except.error VErr.missingScales :=
  (spec_c6_amended _ dsPrecipEx.coords (by decide) (by decide)
    (fun h => absurd h (by decide))).1 rfl

/-- The valid `spi` request `argsSpiEx` with an empty scales list. -/
def argsEmptyScalesEx : Args := { argsSpiEx with scales := some ([] : List Int) }

/-- C6 counterexample to the claim as stated: an empty `--scales` list for
`spi` passes validation — `any(n < 0 for n in [])` is false, so the empty
list is not rejected. -/
theorem spec_c6_counterexample :
    argsEmptyScalesEx.index = Index.spi ∧ argsEmptyScalesEx.scales = some []
    ∧ validateArgs argsEmptyScalesEx = Except.ok () :=
  ⟨rfl, rfl, by decide⟩

/-- C8.  For `palmers` (after the precipitation reference and the
temperature/PET choice are validated): the AWC file and variable name are
required; both dimension forms `(lat, lon)` and `(lat, lon, time)` are
accepted; the AWC dataset's time coordinate never influences the outcome;
and with matching latitudes, mismatching longitude values fail with the
AWC longitude-mismatch error. -/
theorem spec_c8_awc (a : Args) (ref : CoordinateSet)
    (hidx : a.index = Index.palmers)
    (hpre : checkPrecip a = Except.ok ref)
    (htp : checkTempOrPet a ref = Except.ok ()) :
    (a.netcdf_awc = none → validateArgs a = Except.error VErr.missingAwcFile)
    ∧ (∀ ds, a.netcdf_awc = some ds → a.var_name_awc = none →
        validateArgs a = Except.error VErr.missingAwcVarName)
    ∧ (∀ ds vn v, a.netcdf_awc = some ds → a.var_name_awc = some vn →
        List.lookup vn ds.dataVars = some v →
        (v.dims = ["lat", "lon"] ∨ v.dims = expectedDimensions) →
        ref.lat = ds.lat → ref.lon = ds.lon →
        validateArgs a = Except.ok ())
    ∧ (∀ (ds : NCDataset) (t' : List Int),
        checkAwc { a with netcdf_awc := some ds } ref
          = checkAwc { a with netcdf_awc := some { ds with time := t' } } ref)
    ∧ (∀ ds vn v, a.netcdf_awc = some ds → a.var_name_awc = some vn →
        List.lookup vn ds.dataVars = some v →
        (v.dims = ["lat", "lon"] ∨ v.dims = expectedDimensions) →
        ref.lat = ds.lat → ref.lon ≠ ds.lon →
        validateArgs a = Except.error VErr.awcLonMismatch) := by
  have hne : a.index ≠ Index.pet := by simp [hidx]
  have hmem : a.index ∈ [Index.spei, Index.scaled, Index.palmers] := by simp [hidx]
  have hva : validateArgs a =
      match checkAwc a ref with
      | Except.error e => Except.error e
      | Except.ok _ => checkScales a := by
    rw [validateArgs_nonpet a hne]
    simp only [hpre]
    rw [if_pos hmem]
    unfold checkAuxInputs
    simp only [htp]
    rw [if_pos (by simp [hidx])]
  have hdims_neg : ∀ v : NCVar, (v.dims = ["lat", "lon"] ∨ v.dims = expectedDimensions) →
      ¬(v.dims ≠ ["lat", "lon"] ∧ v.dims ≠ expectedDimensions) := by
    intro v hd hcon
    rcases hd with h | h
    · exact hcon.1 h
    · exact hcon.2 h
  refine ⟨?_, ?_, ?_, ?_, ?_⟩
  · intro hawc
    rw [hva]
    unfold checkAwc
    simp only [hawc]
  · intro ds hawc hvn
    rw [hva]
    unfold checkAwc
    simp only [hawc, hvn]
  · intro ds vn v hawc hvn hlk hd hlat hlon
    rw [hva]
    unfold checkAwc
    simp only [hawc, hvn, hlk]
    rw [if_neg (hdims_neg v hd), if_neg (not_not_intro hlat), if_neg (not_not_intro hlon)]
    rw [checkScales_of_not_scaled a (by simp [hidx])]
  · intro ds t'
    unfold checkAwc
    simp
  · intro ds vn v hawc hvn hlk hd hlat hlon
    rw [hva]
    unfold checkAwc
    simp only [hawc, hvn, hlk]
    rw [if_neg (hdims_neg v hd), if_neg (not_not_intro hlat), if_pos hlon]

/-- C8 witness: a `palmers` request with a matching temperature file but no
AWC file fails with the missing-AWC error. -/
theorem spec_c8_witness :
    validateArgs
        { argsSpiEx with
          index := Index.palmers,
          netcdf_temp := some dsTempEx, var_name_temp := some "tavg" }
      = Except.error VErr.missingAwcFile :=
  (spec_c8_awc _ dsPrecipEx.coords rfl (by decide) (by decide)).1 rfl

/-- C9.  Every index except `pet` requires a precipitation file and a
precipitation variable name (omitting either fails with the corresponding
missing-input error), and the successfully validated precipitation
dataset's CoordinateSet is the reference that the validator threads into
every subsequent cross-dataset comparison. -/
theorem spec_c9_precip_required (a : Args) (hne : a.index ≠ Index.pet) :
    (a.netcdf_precip = none → validateArgs a = Except.error VErr.missingPrecipFile)
    ∧ (∀ ds, a.netcdf_precip = some ds → a.var_name_precip = none →
        validateArgs a = Except.error VErr.missingPrecipVarName)
    ∧ (∀ ds vn v, a.netcdf_precip = some ds → a.var_name_precip = some vn →
        List.lookup vn ds.dataVars = some v → v.dims = expectedDimensions →
        checkPrecip a = Except.ok ds.coords)
    ∧ (∀ ds vn v, a.netcdf_precip = some ds → a.var_name_precip = some vn →
        List.lookup vn ds.dataVars = some v → v.dims = expectedDimensions →
        a.index ∈ [Index.spei, Index.scaled, Index.palmers] →
        ∀ e, checkAuxInputs a ds.coords = Except.error e →
          validateArgs a = Except.error e) := by
  refine ⟨?_, ?_, ?_, ?_⟩
  · intro hp
    have hc : checkPrecip a = Except.error VErr.missingPrecipFile := by
      unfold checkPrecip
      rw [hp]
    rw [validateArgs_nonpet a hne]
    simp only [hc]
  · intro ds hp hvn
    have hc : checkPrecip a = Except.error VErr.missingPrecipVarName := by
      unfold checkPrecip
      simp only [hp, hvn]
    rw [validateArgs_nonpet a hne]
    simp only [hc]
  · intro ds vn v hp hvn hlk hd
    unfold checkPrecip
    simp only [hp, hvn, hlk]
    rw [if_neg (not_not_intro hd)]
  · intro ds vn v hp hvn hlk hd hmem e he
    have hc : checkPrecip a = Except.ok ds.coords := by
      unfold checkPrecip
      simp only [hp, hvn, hlk]
      rw [if_neg (not_not_intro hd)]
    rw [validateArgs_nonpet a hne]
    simp only [hc]
    rw [if_pos hmem, he]

/-- C9 witness: an `spi` request with no precipitation file fails with the
missing-precipitation-file error. -/
theorem spec_c9_witness :
    validateArgs { argsSpiEx with netcdf_precip := none }
      = Except.error VErr.missingPrecipFile :=
  (spec_c9_precip_required _ (by decide)).1 rfl

/-!  Lemmas on the decomposition/recomposition pipeline. -/

theorem rowCells_keys (y : Nat) (row : List α) :
    ∀ x0, (rowCells y x0 row).map Prod.fst
      = (List.range row.length).map (fun x => (y, x0 + x)) := by
  induction row with
  | nil => intro x0; rfl
  | cons v rest ih =>
    intro x0
    simp only [rowCells, List.map_cons, List.length_cons, List.range_succ_eq_map, List.map_map]
    rw [ih (x0 + 1)]
    refine congrArg₂ List.cons (by rw [Nat.add_zero]) ?_
    apply List.map_congr_left
    intro x hx
    simp only [Function.comp_apply]
    rw [Prod.mk.injEq]
    exact ⟨rfl, by omega⟩

theorem gridCells_keys (X : Nat) (grid : List (List α)) (hrect : RectGrid X grid) :
    ∀ y0, (gridCells y0 grid).map Prod.fst
      = ((List.range grid.length).map
          (fun y => (List.range X).map (fun x => (y0 + y, x)))).flatten := by
  induction grid with
  | nil => intro y0; rfl
  | cons row rest ih =>
    intro y0
    have hrow : row.length = X := hrect row (List.mem_cons_self _ _)
    have hrest : RectGrid X rest := fun r hr => hrect r (List.mem_cons_of_mem _ hr)
    simp only [gridCells, List.map_append, List.length_cons, List.range_succ_eq_map,
      List.map_cons, List.map_map, List.flatten_cons]
    rw [rowCells_keys y0 row 0, hrow, ih hrest (y0 + 1)]
    refine congrArg₂ List.append ?_ ?_
    · apply List.map_congr_left
      intro x hx
      rw [Prod.mk.injEq]
      exact ⟨by omega, by omega⟩
    · refine congrArg List.flatten (List.map_congr_left ?_)
      intro y hy
      simp only [Function.comp_apply]
      apply List.map_congr_left
      intro x hx
      rw [Prod.mk.injEq]
      exact ⟨by omega, by omega⟩

theorem decompose_keys (X : Nat) (grid : List (List α)) (hrect : RectGrid X grid) :
    (decompose grid).map Prod.fst = allSpatialKeys grid.length X := by
  unfold decompose allSpatialKeys
  rw [gridCells_keys X grid hrect 0]
  refine congrArg List.flatten (List.map_congr_left ?_)
  intro y hy
  apply List.map_congr_left
  intro x hx
  rw [Prod.mk.injEq]
  exact ⟨by omega, by omega⟩

theorem allSpatialKeys_eq_product (Y X : Nat) :
    allSpatialKeys Y X = (List.range Y) ×ˢ (List.range X) := rfl

theorem allSpatialKeys_nodup (Y X : Nat) : (allSpatialKeys Y X).Nodup := by
  rw [allSpatialKeys_eq_product]
  exact (List.nodup_range Y).product (List.nodup_range X)

theorem mem_allSpatialKeys (Y X y x : Nat) :
    (y, x) ∈ allSpatialKeys Y X ↔ y < Y ∧ x < X := by
  rw [allSpatialKeys_eq_product]
  rw [show (List.range Y) ×ˢ (List.range X) = (List.range Y).product (List.range X) from rfl]
  rw [List.pair_mem_product, List.mem_range, List.mem_range]

theorem lookup_rowCells_ne {y y' : Nat} (h : y' ≠ y) (row : List α) :
    ∀ x0 x, List.lookup (y', x) (rowCells y x0 row) = none := by
  induction row with
  | nil => intro x0 x; rfl
  | cons v rest ih =>
    intro x0 x
    have hb : ((y', x) == (y, x0)) = false :=
      beq_eq_false_iff_ne.mpr (fun hp => h (congrArg Prod.fst hp))
    simp only [rowCells, List.lookup_cons, hb]
    exact ih (x0 + 1) x

theorem lookup_rowCells_eq (y : Nat) (row : List α) :
    ∀ x0 x, x < row.length → List.lookup (y, x0 + x) (rowCells y x0 row) = row[x]? := by
  induction row with
  | nil => intro x0 x hx; simp at hx
  | cons v rest ih =>
    intro x0 x hx
    cases x with
    | zero =>
      have hb : ((y, x0 + 0) == (y, x0)) = true := by
        rw [Nat.add_zero]
        exact beq_self_eq_true _
      simp only [rowCells, List.lookup_cons, hb, List.getElem?_cons_zero]
    | succ x' =>
      have hb : ((y, x0 + (x' + 1)) == (y, x0)) = false :=
        beq_eq_false_iff_ne.mpr (fun hp => by
          have h2 : x0 + (x' + 1) = x0 := congrArg Prod.snd hp
          omega)
      simp only [rowCells, List.lookup_cons, hb, List.getElem?_cons_succ]
      rw [show x0 + (x' + 1) = (x0 + 1) + x' from by omega]
      exact ih (x0 + 1) x' (by simp only [List.length_cons] at hx; omega)

theorem lookup_append_of_some {k : Nat × Nat} {v : α} {l1 l2 : List ((Nat × Nat) × α)}
    (h : List.lookup k l1 = some v) :
    List.lookup k (l1 ++ l2) = some v := by
  induction l1 with
  | nil => simp at h
  | cons p rest ih =>
    rcases p with ⟨k1, b1⟩
    rw [List.cons_append]
    rw [List.lookup_cons] at h ⊢
    cases hb : (k == k1) with
    | true => rw [hb] at h; exact h
    | false => rw [hb] at h; exact ih h

theorem lookup_append_of_none {k : Nat × Nat} {l1 l2 : List ((Nat × Nat) × α)}
    (h : List.lookup k l1 = none) :
    List.lookup k (l1 ++ l2) = List.lookup k l2 := by
  induction l1 with
  | nil => rfl
  | cons p rest ih =>
    rcases p with ⟨k1, b1⟩
    rw [List.cons_append]
    rw [List.lookup_cons] at h ⊢
    cases hb : (k == k1) with
    | true => rw [hb] at h; exact Option.noConfusion h
    | false => rw [hb] at h; exact ih h

theorem lookup_gridCells (X : Nat) (grid : List (List α)) (hrect : RectGrid X grid) :
    ∀ y0 y x, y < grid.length → x < X →
      List.lookup (y0 + y, x) (gridCells y0 grid)
        = grid[y]?.bind (fun row => row[x]?) := by
  induction grid with
  | nil => intro y0 y x hy hx; simp at hy
  | cons row rest ih =>
    intro y0 y x hy hx
    have hrow : row.length = X := hrect row (List.mem_cons_self _ _)
    have hrest : RectGrid X rest := fun r hr => hrect r (List.mem_cons_of_mem _ hr)
    cases y with
    | zero =>
      have hx' : x < row.length := by omega
      have h1 : List.lookup (y0 + 0, x) (rowCells y0 0 row) = row[x]? := by
        rw [Nat.add_zero]
        have h2 := lookup_rowCells_eq y0 row 0 x hx'
        rw [Nat.zero_add] at h2
        exact h2
      cases hg : row[x]? with
      | none => exact absurd (List.getElem?_eq_none_iff.mp hg) (by omega)
      | some w =>
        rw [hg] at h1
        unfold gridCells
        rw [lookup_append_of_some h1, List.getElem?_cons_zero]
        exact hg.symm
    | succ y' =>
      have h1 : List.lookup (y0 + (y' + 1), x) (rowCells y0 0 row) = none :=
        lookup_rowCells_ne (by omega) row 0 x
      unfold gridCells
      rw [lookup_append_of_none h1]
      rw [show y0 + (y' + 1) = (y0 + 1) + y' from by omega]
      rw [ih hrest (y0 + 1) y' x (by simp only [List.length_cons] at hy; omega) hx]
      rw [List.getElem?_cons_succ]

theorem lookup_applyPerCell (f : α → β) (k : Nat × Nat) (cells : List ((Nat × Nat) × α)) :
    List.lookup k (applyPerCell f cells) = (List.lookup k cells).map f := by
  induction cells with
  | nil => rfl
  | cons p rest ih =>
    rcases p with ⟨k1, b1⟩
    simp only [applyPerCell, List.map_cons, List.lookup_cons]
    cases hb : (k == k1) with
    | true => rfl
    | false => simpa [applyPerCell] using ih

theorem seqOpt_map_some (l : List α) : seqOpt (l.map some) = some l := by
  induction l with
  | nil => rfl
  | cons v rest ih =>
    rw [List.map_cons]
    unfold seqOpt
    rw [ih]

theorem map_range_of_get (l : List β) :
    ∀ F : Nat → Option β, (∀ i, i < l.length → F i = l[i]?) →
      (List.range l.length).map F = l.map some := by
  induction l with
  | nil => intro F h; rfl
  | cons b rest ih =>
    intro F h
    simp only [List.length_cons, List.range_succ_eq_map, List.map_cons, List.map_map]
    refine congrArg₂ List.cons ?_ ?_
    · have h0 := h 0 (by simp)
      rw [List.getElem?_cons_zero] at h0
      exact h0
    · refine ih (F ∘ Nat.succ) ?_
      intro i hi
      have h1 := h (i + 1) (by simp only [List.length_cons]; omega)
      rw [List.getElem?_cons_succ] at h1
      exact h1

theorem recompose_applyPerCell (X : Nat) (grid : List (List α)) (hrect : RectGrid X grid)
    (f : α → α) :
    recompose grid.length X (applyPerCell f (decompose grid)) = some (grid.map (List.map f)) := by
  unfold recompose
  have hlook : ∀ y x, y < grid.length → x < X →
      List.lookup (y, x) (applyPerCell f (decompose grid))
        = (grid[y]?.bind (fun row => row[x]?)).map f := by
    intro y x hy hx
    rw [lookup_applyPerCell]
    have h := lookup_gridCells X grid hrect 0 y x hy hx
    rw [Nat.zero_add] at h
    show (List.lookup (y, x) (gridCells 0 grid)).map f = _
    rw [h]
  have houter : ∀ y, y < (grid.map (List.map f)).length →
      (fun y => seqOpt ((List.range X).map
          (fun x => List.lookup (y, x) (applyPerCell f (decompose grid))))) y
        = (grid.map (List.map f))[y]? := by
    intro y hy
    have hy' : y < grid.length := by simpa using hy
    cases hrow : grid[y]? with
    | none => exact absurd (List.getElem?_eq_none_iff.mp hrow) (by omega)
    | some row =>
      have hlen : row.length = X := hrect row (List.getElem?_mem hrow)
      have hin : (List.range X).map
          (fun x => List.lookup (y, x) (applyPerCell f (decompose grid)))
            = (row.map f).map some := by
        have hXlen : (row.map f).length = X := by rw [List.length_map, hlen]
        rw [← hXlen]
        refine map_range_of_get (row.map f) _ ?_
        intro x hx
        have hx' : x < X := by rw [← hXlen]; exact hx
        rw [hlook y x hy' hx', hrow]
        rw [List.getElem?_map]
        rfl
      show seqOpt ((List.range X).map
        (fun x => List.lookup (y, x) (applyPerCell f (decompose grid))))
          = (grid.map (List.map f))[y]?
      rw [hin, seqOpt_map_some, List.getElem?_map, hrow]
      rfl
  have hmaps : (List.range grid.length).map
      (fun y => seqOpt ((List.range X).map
        (fun x => List.lookup (y, x) (applyPerCell f (decompose grid)))))
        = (grid.map (List.map f)).map some := by
    have hglen : grid.length = (grid.map (List.map f)).length := (List.length_map _ _).symm
    rw [hglen]
    exact map_range_of_get _ _ houter
  rw [hmaps, seqOpt_map_some]

/-- C1.  Decompose-then-Recompose is a shape- and key-preserving round
trip: for every rectangular grid (lat extent `Y = grid.length`, lon extent
`X`, arbitrary per-cell time series), the SpatialKeys produced by stacking
are exactly the row-major enumeration of `(y, x)` with `0 ≤ y < Y`,
`0 ≤ x < X` — each exactly once, in the original order — and unstacking the
identity per-cell transform of the stacked grid reproduces the original
grid unchanged. -/
theorem spec_c1_decompose_recompose (grid : List (List (List Int))) (X : Nat)
    (hrect : RectGrid X grid) :
    ((decompose grid).map Prod.fst = allSpatialKeys grid.length X)
    ∧ ((decompose grid).map Prod.fst).Nodup
    ∧ (∀ y x : Nat, (y, x) ∈ (decompose grid).map Prod.fst ↔ y < grid.length ∧ x < X)
    ∧ recompose grid.length X (applyPerCell (fun series => series) (decompose grid))
        = some grid := by
  have hkeys := decompose_keys X grid hrect
  refine ⟨hkeys, ?_, ?_, ?_⟩
  · rw [hkeys]
    exact allSpatialKeys_nodup _ _
  · intro y x
    rw [hkeys]
    exact mem_allSpatialKeys _ _ y x
  · rw [recompose_applyPerCell X grid hrect (fun series => series)]
    have hid : ∀ g : List (List (List Int)), g.map (List.map (fun series => series)) = g := by
      intro g
      induction g with
      | nil => rfl
      | cons r t iht => simp only [List.map_cons, iht, List.map_id']
    rw [hid grid]

/-- Concrete 2-lat by 2-lon grid, two time steps per cell, for the C1
witness. -/
def gridEx : List (List (List Int)) := [[[1, 2], [3, 4]], [[5, 6], [7, 8]]]

/-- C1 witness: the round trip at the concrete grid `gridEx`. -/
theorem spec_c1_witness :
    RectGrid 2 gridEx
    ∧ (decompose gridEx).map Prod.fst = allSpatialKeys 2 2
    ∧ recompose 2 2 (applyPerCell (fun series => series) (decompose gridEx)) = some gridEx := by
  have hrect : RectGrid 2 gridEx := by unfold RectGrid; decide
  exact ⟨hrect, (spec_c1_decompose_recompose gridEx 2 hrect).1,
    (spec_c1_decompose_recompose gridEx 2 hrect).2.2.2⟩

/-!  Lemmas on the main block. -/

theorem leadMatch_self (l : List Char) : leadMatch l l = true := by
  induction l with
  | nil => rfl
  | cons c rest ih => simp [leadMatch, ih]

theorem pyInStr_self (s : String) : pyInStr s s = true := by
  unfold pyInStr
  apply List.any_eq_true.mpr
  refine ⟨0, List.mem_range.mpr (by omega), ?_⟩
  simpa using leadMatch_self s.data

theorem lookup_filter_keeps {pr : String × NCVar → Bool} {n : String}
    (h : ∀ v : NCVar, pr (n, v) = true) :
    ∀ l : List (String × NCVar), List.lookup n (l.filter pr) = List.lookup n l := by
  intro l
  induction l with
  | nil => rfl
  | cons q rest ih =>
    rcases q with ⟨n1, v1⟩
    by_cases he : n = n1
    · rw [← he]
      rw [List.filter_cons_of_pos (h v1)]
      simp only [List.lookup_cons, beq_self_eq_true]
    · cases hp : pr (n1, v1) with
      | true =>
        rw [List.filter_cons_of_pos hp]
        rw [List.lookup_cons, List.lookup_cons]
        have hb : (n == n1) = false := beq_eq_false_iff_ne.mpr he
        rw [hb]
        exact ih
      | false =>
        rw [List.filter_cons_of_neg (by simp [hp])]
        rw [List.lookup_cons]
        have hb : (n == n1) = false := beq_eq_false_iff_ne.mpr he
        rw [hb]
        exact ih

theorem lookup_setVar_self (name : String) (v : NCVar) :
    ∀ l : List (String × NCVar), List.lookup name (setVar name v l) = some v := by
  intro l
  induction l with
  | nil =>
    simp only [setVar, List.lookup_cons, beq_self_eq_true]
  | cons q rest ih =>
    rcases q with ⟨n1, v1⟩
    by_cases he : n1 = name
    · simp only [setVar]
      rw [if_pos he]
      simp only [List.lookup_cons, beq_self_eq_true]
    · simp only [setVar]
      rw [if_neg he]
      rw [List.lookup_cons]
      have hb : (name == n1) = false :=
        beq_eq_false_iff_ne.mpr (fun hc => he hc.symm)
      rw [hb]
      exact ih

theorem lookup_setVar_ne (name n : String) (hne : n ≠ name) (v : NCVar) :
    ∀ l : List (String × NCVar), List.lookup n (setVar name v l) = List.lookup n l := by
  intro l
  induction l with
  | nil =>
    simp only [setVar, List.lookup_cons, beq_eq_false_iff_ne.mpr hne]
  | cons q rest ih =>
    rcases q with ⟨n1, v1⟩
    by_cases he : n1 = name
    · simp only [setVar]
      rw [if_pos he]
      rw [List.lookup_cons, List.lookup_cons]
      have hb : (n == name) = false := beq_eq_false_iff_ne.mpr hne
      have hb1 : (n == n1) = false := beq_eq_false_iff_ne.mpr (fun hc => hne (hc.trans he))
      rw [hb, hb1]
    · simp only [setVar]
      rw [if_neg he]
      rw [List.lookup_cons, List.lookup_cons]
      cases hb : (n == n1) with
      | true => rfl
      | false => exact ih

/-- Folding `spiStep` over the scales from a rectangular precipitation grid
never fails, installs a layer under the scale-qualified name of every
processed scale, and preserves the presence of every binding of the
starting dataset. -/
theorem spiFold_ok (f : Int → List Int → List Int) (p : Periodicity)
    (pdata : List (List (List Int))) (hrect : RectGrid (gridWidth pdata) pdata) :
    ∀ (scales : List Int) (d0 : List (String × NCVar)),
      ∃ dN, scales.foldl (spiStep f p pdata) (Except.ok d0) = Except.ok dN
        ∧ (∀ s ∈ scales, ∃ v, List.lookup (scaleVarName s) dN = some v)
        ∧ (∀ n, (∃ v, List.lookup n d0 = some v) → ∃ v, List.lookup n dN = some v) := by
  intro scales
  induction scales with
  | nil =>
    intro d0
    exact ⟨d0, rfl, by simp, fun n h => h⟩
  | cons s ss ih =>
    intro d0
    have hlayer : computeSpiLayer (f s) pdata = some (pdata.map (List.map (f s))) :=
      recompose_applyPerCell (gridWidth pdata) pdata hrect (f s)
    have hstep : spiStep f p pdata (Except.ok d0) s
        = Except.ok (setVar (scaleVarName s)
            (spiOutVar s p (pdata.map (List.map (f s)))) d0) := by
      unfold spiStep
      rw [hlayer]
    obtain ⟨dN, hfold, hall, hpres⟩ :=
      ih (setVar (scaleVarName s) (spiOutVar s p (pdata.map (List.map (f s)))) d0)
    refine ⟨dN, ?_, ?_, ?_⟩
    · rw [List.foldl_cons, hstep]
      exact hfold
    · intro t htmem
      rcases List.mem_cons.mp htmem with he | hm
      · subst he
        exact hpres (scaleVarName t) ⟨_, lookup_setVar_self (scaleVarName t) _ d0⟩
      · exact hall t hm
    · intro n hn
      by_cases he : n = scaleVarName s
      · rw [he]
        exact hpres (scaleVarName s) ⟨_, lookup_setVar_self (scaleVarName s) _ d0⟩
      · refine hpres n ?_
        rw [lookup_setVar_ne (scaleVarName s) n he _ d0]
        exact hn

/-- C2, amended.  For `spi` and `scaled` requests that reach the compute
loop (valid precipitation dataset, variable present, non-empty time
coordinate, rectangular grid, scales list present), the compute loop runs
once per requested scale and the resulting single output dataset contains
one layer per requested scale under the scale-qualified name
`"spi_gamma_" ++ zfill 2 scale`.  (Requests for any other index reach
line 370's unbound `dataset` instead and produce no layer at all — see the
counterexample.) -/
theorem spec_c2_amended (f : Int → List Int → List Int) (a : Args)
    (ds : NCDataset) (vname : String) (pv : NCVar) (scales : List Int)
    (hidx : a.index = Index.spi ∨ a.index = Index.scaled)
    (hp : a.netcdf_precip = some ds)
    (hv : a.var_name_precip = some vname)
    (hlk : List.lookup vname (ds.dataVars.filter (fun q => pyInStr q.1 vname)) = some pv)
    (ht : ds.time ≠ [])
    (hs : a.scales = some scales)
    (hrect : RectGrid (gridWidth pv.data) pv.data)
    (hname : ∀ s ∈ scales, scaleVarName s ≠ vname) :
    ∃ out, pyMain f a = Except.ok out
      ∧ ∀ s ∈ scales, ∃ v, List.lookup (scaleVarName s) out = some v := by
  unfold pyMain
  rw [if_pos hidx]
  cases htm : ds.time with
  | nil => exact absurd htm ht
  | cons t0 trest =>
    obtain ⟨dN, hfold, hall, hpres⟩ :=
      spiFold_ok f a.periodicity pv.data hrect scales
        (ds.dataVars.filter (fun q => pyInStr q.1 vname))
    simp only [hp, hv, hlk, htm, hs, hfold]
    refine ⟨dN.filter (fun q => decide (q.1 ≠ vname)), rfl, ?_⟩
    intro s hsmem
    obtain ⟨v, hvlk⟩ := hall s hsmem
    refine ⟨v, ?_⟩
    have hpred : ∀ w : NCVar,
        (fun q : String × NCVar => decide (q.1 ≠ vname)) (scaleVarName s, w) = true :=
      fun _ => decide_eq_true (hname s hsmem)
    rw [lookup_filter_keeps hpred dN]
    exact hvlk

/-- The precipitation variable of `dsPrecipEx`, for witnesses. -/
def pvEx : NCVar := { dims := ["lat", "lon", "time"], data := [[[1, 2, 3]]], attrs := [] }

/-- C2 witness for the amended claim: the concrete `spi` request over
`dsPrecipEx` with scales 3 and 6 yields an output dataset with a layer
under each of the names `spi_gamma_03` and `spi_gamma_06`. -/
theorem spec_c2_witness :
    ∃ out, pyMain (fun _ series => series) argsSpiEx = Except.ok out
      ∧ ∀ s ∈ [(3 : Int), 6], ∃ v, List.lookup (scaleVarName s) out = some v :=
  spec_c2_amended (fun _ series => series) argsSpiEx dsPrecipEx ("prcp") pvEx [3, 6]
    (Or.inl rfl) rfl rfl (by decide) (by decide) rfl (by unfold RectGrid; decide) (by decide)

/-- The valid request `argsSpiEx` with the index changed to `pnp`. -/
def argsPnpEx : Args := { argsSpiEx with index := Index.pnp }

/-- C2 counterexample to the claim as stated: a `pnp` request that passes
validation reaches the unconditional line 370 with `dataset` never
assigned, so the engine does not run for it and no output layer is
produced — the run dies with the `NameError`. -/
theorem spec_c2_counterexample :
    validateArgs argsPnpEx = Except.ok ()
    ∧ pyMain (fun _ series => series) argsPnpEx = Except.error PyErr.nameErrorDataset :=
  ⟨by decide, by decide⟩

/-- Dataset for C10's failing input: the data variable `pr` is named by a
proper substring of the precipitation variable name `prcp`. -/
def dsSubstrEx : NCDataset :=
  { dataVars := [("prcp", { dims := ["lat", "lon", "time"], data := [[[1, 2]]], attrs := [] }),
                 ("pr", { dims := ["lat", "lon", "time"], data := [[[5, 6]]], attrs := [] })],
    lat := [10], lon := [20], time := [100, 200] }

/-- The `spi` request over `dsSubstrEx`, C10's failing input. -/
def argsSubstrEx : Args :=
  { argsSpiEx with netcdf_precip := some dsSubstrEx, scales := some [3] }

/-- C10 (code bug).  Line 322's `if var not in arguments.var_name_precip`
is Python substring containment, so the input data variable `pr` — whose
name is a substring of `prcp` — survives the "trim out all data variables
except the precipitation" loop and is carried into the output dataset,
contradicting the code's own comment; the precipitation variable itself is
dropped and the scale layer is present as claimed. -/
theorem spec_c10_substring_bug :
    validateArgs argsSubstrEx = Except.ok ()
    ∧ (∃ out, pyMain (fun _ series => series) argsSubstrEx = Except.ok out
        ∧ (∃ v, List.lookup ("pr") out = some v)
        ∧ List.lookup ("prcp") out = none
        ∧ (∃ v, List.lookup (scaleVarName 3) out = some v)) := by
  refine ⟨by decide, ⟨_, rfl, ⟨_, rfl⟩, rfl, ⟨_, rfl⟩⟩⟩

end ClimateGrid
